import Mathlib

/-!
Verification of the rotation/state-machine logic and the draft/publish
workflow of `main_bot.py` (a scheduled LinkedIn content bot).

Shallow embedding conventions:
* Python strings are modelled as `String` (for atomic labels) or as
  `List Char` (for post text that is sliced / scanned character by
  character; Python slicing and `len` operate on code points, as does
  `List Char`).
* The two external HTTP collaborators (the generative API and the
  social API) are modelled as oracles: functions from call index to
  the value the call would produce.
* The local filesystem is modelled as a `World` record holding the
  parsed contents of the two JSON documents and the candidate image.
* `exit(1)` is modelled as the `ExitSig.fail` outcome; a normal
  `return` is `ExitSig.ok`.
-/

/-- One act of the career arc: `{"name": ..., "max_episodes": ...}`. -/
structure Act where
  name : String
  max_episodes : Nat
deriving DecidableEq

/-- The `ACTS` list of `main_bot.py` (names verbatim, including the
mojibake bytes present in the source file). -/
def ACTS : List Act := [
  ⟨"ACT I ‚Äì Early Confidence & First Systems", 8⟩,
  ⟨"ACT II ‚Äì Scaling Pressure & Hidden Complexity", 10⟩,
  ⟨"ACT III ‚Äì Incidents, Failures, Reality", 8⟩,
  ⟨"ACT IV ‚Äì Trade-offs & Simplification", 6⟩,
  ⟨"ACT V ‚Äì Ownership, Leadership, People Systems", 6⟩,
  ⟨"ACT VI ‚Äì Judgment, Restraint, Engineering Wisdom", 6⟩]

/-- The `TECH_FOCUS_AREAS` dict: category name to topic strings. -/
def TECH_FOCUS_AREAS : List (String × List String) := [
  ("distributed_data", [
    "Cassandra (Consistency vs Availability)",
    "CQRS & Dual Writes",
    "Schema Evolution & Backfills"]),
  ("caching", [
    "Redis & Distributed Locking",
    "Cache Invalidation & TTLs"]),
  ("async", [
    "Kafka Consumer Lag & Retries",
    "At-Least-Once Delivery & Idempotency"]),
  ("infra", [
    "Autoscaling & Cold Starts",
    "Thread Pools & Resource Exhaustion"]),
  ("observability", [
    "Misleading Metrics & Green Dashboards",
    "Alert Fatigue & SLIs"]),
  ("ownership", [
    "Shared Services & API Contracts",
    "Platform vs Product Boundaries"])]

/-- One theme: `{"type": ..., "tone": ..., "allowed_tech": [...]}`. -/
structure Theme where
  type : String
  tone : String
  allowed_tech : List String
deriving DecidableEq

/-- The `THEMES` list of `main_bot.py` (type strings verbatim). -/
def THEMES : List Theme := [
  ⟨"THE ARCHITECTURAL TRAP üèóÔ∏è", "Humble, analytical",
    ["distributed_data", "caching", "async"]⟩,
  ⟨"THE HUMAN ALGORITHM ü§ù", "Reflective, empathetic",
    ["ownership", "async", "observability"]⟩,
  ⟨"THE CRASH üö®", "Calm urgency",
    ["infra", "async", "caching"]⟩,
  ⟨"THE FALSE FIX üîß", "Analytical, corrective",
    ["caching", "infra"]⟩,
  ⟨"THE METRIC LIE üìä", "Skeptical, reflective",
    ["observability"]⟩,
  ⟨"THE OWNERSHIP GAP üß©", "Leadership-focused",
    ["ownership"]⟩]

/-- Persisted rotation state (`story_state.json`). -/
structure RotationState where
  act_index : Nat
  episode : Nat
  previous_lessons : List String
  last_themes : List String
  last_tech : List String
deriving DecidableEq

/-- The default state created on first run (`run_draft_mode` /
`run_publish_mode`): `{"act_index": 0, "episode": 1, ...}`. -/
def defaultState : RotationState := ⟨0, 1, [], [], []⟩

/-- Python `l[-k:]`: the last `k` entries of a list. -/
def lastK (k : Nat) (l : List String) : List String :=
  l.drop (l.length - k)

/-- `dict.get(cat, [])` on `TECH_FOCUS_AREAS`. -/
def lookupCategory (cat : String) : List String :=
  ((TECH_FOCUS_AREAS.find? (fun p => p.1 == cat)).map Prod.snd).getD []

/-- Tech pool of a theme: topics of all its allowed categories, in
order (`for cat in allowed_categories: tech_pool.extend(...)`). -/
def techPool (theme : Theme) : List String :=
  theme.allowed_tech.flatMap lookupCategory

/-- `[t for t in THEMES if t["type"] not in last_themes[-3:]]`. -/
def eligibleThemesFiltered (state : RotationState) : List Theme :=
  THEMES.filter (fun t => decide (t.type ∉ lastK 3 state.last_themes))

/-- `eligible_themes`, after the empty-set fallback to all of `THEMES`. -/
def eligibleThemes (state : RotationState) : List Theme :=
  if eligibleThemesFiltered state = [] then THEMES
  else eligibleThemesFiltered state

/-- `[t for t in tech_pool if t not in last_tech[-2:]]`. -/
def finalTechFiltered (state : RotationState) (theme : Theme) : List String :=
  (techPool theme).filter (fun t => decide (t ∉ lastK 2 state.last_tech))

/-- `final_tech_pool`, after the empty-set fallback to the full pool. -/
def finalTechPool (state : RotationState) (theme : Theme) : List String :=
  if finalTechFiltered state theme = [] then techPool theme
  else finalTechFiltered state theme

/-- `random.choice`, with the random source made explicit as a natural
seed reduced modulo the list length (`random.choice` picks some element
of a non-empty list; on an empty list it raises, modelled by the
default). -/
def chooseFrom (l : List α) (d : α) (seed : Nat) : α :=
  l.getD (seed % l.length) d

/-- Fallback theme used only to totalise `chooseFrom` (never selected
from a non-empty pool). -/
def junkTheme : Theme := ⟨"", "", []⟩

/-- `select_theme_and_tech(state)`: filter themes against the last 3
theme types (fallback: all themes), choose one, build its tech pool,
filter against the last 2 tech topics (fallback: whole pool), choose
one.  The two `random.choice` calls are given explicit seeds. -/
def select_theme_and_tech (state : RotationState) (seed1 seed2 : Nat) :
    Theme × String :=
  let theme := chooseFrom (eligibleThemes state) junkTheme seed1
  let tech := chooseFrom (finalTechPool state theme) "" seed2
  (theme, tech)

/-- Episode/act advancement as performed by `run_publish_mode` on
success: `state["episode"] += 1` followed by the wrap check
`if state["episode"] > current_act["max_episodes"]`. -/
def advance (act_index episode : Nat) : Nat × Nat :=
  let e := episode + 1
  if e > (ACTS.getD act_index ⟨"", 0⟩).max_episodes then
    ((act_index + 1) % ACTS.length, 1)
  else
    (act_index, e)

/-- Draft document (`current_draft.json`).  The two meta keys are
optional because `run_publish_mode` guards on their presence
(`if "meta_theme" in draft: ...`). -/
structure Draft where
  post_text : List Char
  lesson_extracted : String
  meta_theme : Option String
  meta_tech : Option String
deriving DecidableEq

/-- The state update committed by `run_publish_mode` after a confirmed
successful post: append the lesson, bump the episode, append and trim
the theme/tech histories, then wrap act/episode. -/
def commitState (s : RotationState) (d : Draft) : RotationState :=
  let lessons := s.previous_lessons ++ [d.lesson_extracted]
  let themes0 := match d.meta_theme with
    | some th => s.last_themes ++ [th]
    | none => s.last_themes
  let tech0 := match d.meta_tech with
    | some te => s.last_tech ++ [te]
    | none => s.last_tech
  let themes := lastK 5 themes0
  let tech := lastK 5 tech0
  let ae := advance s.act_index s.episode
  ⟨ae.1, ae.2, lessons, themes, tech⟩

/-- Index of the first `)` or `]` in `l` occurring before any newline
(Python `.` in a regex does not cross lines), as consumed by the
non-greedy pattern `[\(\[].*?[\)\]]` in `clean_text`. -/
def findCloseIdx : List Char → Option Nat
  | [] => none
  | c :: rest =>
    if c = ')' ∨ c = ']' then some 0
    else if c = '\n' then none
    else (findCloseIdx rest).map (· + 1)

/-- Fuelled scan implementing `re.sub(r'[\(\[].*?[\)\]]', '', text)`:
at each opener, the non-greedy match extends to the first closer on the
same line and the whole span is deleted; an opener with no closer is
kept.  Fuel is the remaining input length, so it never runs out. -/
def removeBracketsGo : Nat → List Char → List Char
  | 0, l => l
  | fuel + 1, l =>
    match l with
    | [] => []
    | c :: rest =>
      if c = '(' ∨ c = '[' then
        match findCloseIdx rest with
        | some i => removeBracketsGo fuel (rest.drop (i + 1))
        | none => c :: removeBracketsGo fuel rest
      else c :: removeBracketsGo fuel rest

/-- `re.sub(r'[\(\[].*?[\)\]]', '', text)`. -/
def removeBrackets (l : List Char) : List Char :=
  removeBracketsGo l.length l

/-- Case-insensitive test that `l` starts with the (lowercase ASCII)
pattern `p`, as `re.IGNORECASE` matches the label words. -/
def startsWithCI (p : String) (l : List Char) : Bool :=
  (l.take p.length).map Char.toLower = p.data

/-- At a line start, remove one leading label among
`Hook:`/`Lesson:`/`Moral:`/`Reflection:` (case-insensitive), as matched
by `re.sub(r'(?i)^(Hook|Lesson|Moral|Reflection):', '', text,
flags=re.MULTILINE)`.  Scanning resumes after the match, so at most one
label is removed per line start. -/
def stripLabel (l : List Char) : List Char :=
  if startsWithCI "hook:" l then l.drop 5
  else if startsWithCI "lesson:" l then l.drop 7
  else if startsWithCI "moral:" l then l.drop 6
  else if startsWithCI "reflection:" l then l.drop 11
  else l

/-- Fuelled walk applying `stripLabel` at the start of the text and
after every newline (the `^` positions of a MULTILINE regex). -/
def removeLabelsGo : Nat → List Char → List Char
  | 0, l => l
  | fuel + 1, l =>
    match l with
    | [] => []
    | c :: rest =>
      if c = '\n' then c :: removeLabelsGo fuel (stripLabel rest)
      else c :: removeLabelsGo fuel rest

/-- `re.sub(r'(?i)^(Hook|Lesson|Moral|Reflection):', '', text,
flags=re.MULTILINE)`. -/
def removeLabels (l : List Char) : List Char :=
  removeLabelsGo l.length (stripLabel l)

/-- Python `str.strip()` whitespace set (the characters `strip`
removes by default). -/
def pyWhitespace (c : Char) : Bool :=
  c = ' ' ∨ c = '\t' ∨ c = '\n' ∨ c = '\r' ∨ c = '\x0b' ∨ c = '\x0c'

/-- Python `text.strip()`. -/
def pyStrip (l : List Char) : List Char :=
  ((l.dropWhile pyWhitespace).reverse.dropWhile pyWhitespace).reverse

/-- `clean_text` of `main_bot.py`: remove bracketed spans, remove
leading labels at line starts, delete every `*`, strip outer
whitespace.  (The empty string is returned unchanged, matching the
`if not text: return ""` guard.) -/
def clean_text (l : List Char) : List Char :=
  pyStrip (List.filter (fun c => decide (c ≠ '*'))
    (removeLabels (removeBrackets l)))

/-- The fixed hashtag suffix the prompt instructs every post to end
with (`FORMAT: End with: #backend #engineering #software #java` in
`build_prompt`). -/
def fixedSuffix : List Char := "#backend #engineering #software #java".data

/-- The length guard of `post_to_linkedin`:
`if len(text) > 2800: text = text[:2797] + "..."`. -/
def trimText (t : List Char) : List Char :=
  if 2800 < t.length then t.take 2797 ++ "...".data else t

/-- Content parsed from one generation call: the JSON document with
`post_text` and `lesson_extracted`. -/
structure GenContent where
  post_text : List Char
  lesson_extracted : String
deriving DecidableEq

/-- The generative API as an oracle: what the generation call and the
editor-review call would return on each attempt (the evolving prompt
is absorbed into the oracle's attempt index). -/
structure GenOracle where
  gen : Nat → GenContent
  review : Nat → String

/-- Instrumented result of `generate_with_review`: the returned
content, how many generation attempts were made, and whether the
returned draft passed the editor gate. -/
structure GenOutcome where
  content : GenContent
  attempts : Nat
  gated : Bool
deriving DecidableEq

/-- `generate_with_review` of `main_bot.py`: `for attempt in range(2)`,
each attempt generates, sanitizes with `clean_text`, and asks the
editor; on a verdict stripping to `PASS_9_PLUS` the sanitized draft is
returned.  After two failed attempts the code prints a warning and
returns the *last generated* content unchanged (its `post_text` not
replaced by the sanitized version) — it does not exit. -/
def generate_with_review (o : GenOracle) : GenOutcome :=
  let c0 := o.gen 0
  let p0 := clean_text c0.post_text
  if pyStrip (o.review 0).data = "PASS_9_PLUS".data then
    ⟨⟨p0, c0.lesson_extracted⟩, 1, true⟩
  else
    let c1 := o.gen 1
    let p1 := clean_text c1.post_text
    if pyStrip (o.review 1).data = "PASS_9_PLUS".data then
      ⟨⟨p1, c1.lesson_extracted⟩, 2, true⟩
    else
      ⟨c1, 2, false⟩

/-- The create-post request actually submitted: final commentary text
and optional media attachment. -/
structure PostCall where
  text : List Char
  media : Option String
deriving DecidableEq

/-- `post_to_linkedin`: trims the text, performs exactly one POST to
the posts endpoint, and succeeds iff the status is 201.  `statuses` is
the oracle of statuses successive calls would return; the triple
records (success, number of HTTP attempts made, the request sent). -/
def post_to_linkedin (text : List Char) (media : Option String)
    (statuses : Nat → Nat) : Bool × Nat × PostCall :=
  let t := trimText text
  (statuses 0 == 201, 1, ⟨t, media⟩)

/-- One poll iteration result from the image status endpoint: `none`
models a transport exception (the `except` branch sleeps and
continues), `some s` the extracted status string. -/
def pollResponses := Nat → Option String

/-- The polling loop of `poll_image_status`: up to `fuel` iterations
before the 60-second deadline; `AVAILABLE` succeeds, `FAILED`/`ERROR`
fail terminally, anything else (or an exception) sleeps and retries;
deadline expiry returns `False`. -/
def pollLoop (status : Nat → Option String) : Nat → Nat → Bool
  | _, 0 => false
  | i, fuel + 1 =>
    match status i with
    | some s =>
      if s = "AVAILABLE" then true
      else if s = "FAILED" ∨ s = "ERROR" then false
      else pollLoop status (i + 1) fuel
    | none => pollLoop status (i + 1) fuel

/-- `poll_image_status`: `if not image_urn: return False`, then the
bounded polling loop. -/
def poll_image_status (image_urn : Option String)
    (status : Nat → Option String) (fuel : Nat) : Bool :=
  match image_urn with
  | none => false
  | some _ => pollLoop status 0 fuel

/-- `load_json`: returns `None` when the file does not exist, and the
`try/except` turns any parse failure into `None` as well. -/
def load_json (present : Bool) (parsed : Except String α) : Option α :=
  if present then
    match parsed with
    | Except.ok a => some a
    | Except.error _ => none
  else none

/-- The rotation state `run_draft_mode` starts from: the loaded state,
or the default when loading yielded nothing (`if not state:`). -/
def draft_mode_initial_state (loaded : Option RotationState) :
    RotationState :=
  loaded.getD defaultState

/-- Local filesystem as seen through the parsed documents: the
rotation-state file, the draft file (`none` = absent or unparseable),
and the candidate image file. -/
structure World where
  state_file : Option RotationState
  draft_file : Option Draft
  image_file : Option String
deriving DecidableEq

/-- The social-API collaborator for one publish run: the whoami result,
the upload result (`none` = upload exception), the status-poll oracle
with its iteration budget, and the create-post status oracle. -/
structure Api where
  urn : Option String
  upload_result : Option String
  poll_status : Nat → Option String
  poll_fuel : Nat
  post_statuses : Nat → Nat

/-- Process exit: `ok` models a normal return (exit status 0), `fail`
models `exit(1)`. -/
inductive ExitSig where
  | ok
  | fail
deriving DecidableEq

/-- Observable outcome of `run_publish_mode`: the filesystem after the
run, the exit signal, and the create-post request made (if any). -/
structure PublishOutcome where
  world : World
  exitsig : ExitSig
  post_call : Option PostCall
deriving DecidableEq

/-- `run_publish_mode` of `main_bot.py`: load the draft (absent →
report and return), resolve the urn (absent → `exit(1)`), try the
image (upload failure or failed poll degrade to no media), post, and
only on a 201 success commit the rotation state, delete the draft and
the image; any post failure leaves every file untouched and exits 1. -/
def run_publish_mode (w : World) (api : Api) : PublishOutcome :=
  match w.draft_file with
  | none => ⟨w, ExitSig.ok, none⟩
  | some draft =>
    match api.urn with
    | none => ⟨w, ExitSig.fail, none⟩
    | some _ =>
      let media : Option String :=
        match w.image_file with
        | none => none
        | some _ =>
          match api.upload_result with
          | none => none
          | some m =>
            if poll_image_status (some m) api.poll_status api.poll_fuel
            then some m else none
      let r := post_to_linkedin draft.post_text media api.post_statuses
      if r.1 then
        let s0 := w.state_file.getD defaultState
        let s1 := commitState s0 draft
        ⟨⟨some s1, none, none⟩, ExitSig.ok, some r.2.2⟩
      else
        ⟨w, ExitSig.fail, some r.2.2⟩

/-! ## Helper lemmas (shared across claims) -/

theorem lastK_length_le (k : Nat) (l : List String) : (lastK k l).length ≤ k := by
  simp only [lastK, List.length_drop]
  omega

theorem chooseFrom_mem {α : Type} (l : List α) (d : α) (seed : Nat)
    (h : l ≠ []) : chooseFrom l d seed ∈ l := by
  have hl : 0 < l.length := List.length_pos.mpr h
  have hm : seed % l.length < l.length := Nat.mod_lt _ hl
  unfold chooseFrom
  rw [List.getD_eq_getElem?_getD, List.getElem?_eq_getElem hm]
  exact List.getElem_mem hm

theorem advance_eq (ai ep : Nat) :
    advance ai ep =
      if ep + 1 > (ACTS.getD ai ⟨"", 0⟩).max_episodes then
        ((ai + 1) % ACTS.length, 1)
      else (ai, ep + 1) := rfl

theorem eligibleThemes_ne_nil (s : RotationState) : eligibleThemes s ≠ [] := by
  unfold eligibleThemes
  split
  · decide
  · assumption

theorem mem_THEMES_of_mem_eligible {s : RotationState} {t : Theme}
    (h : t ∈ eligibleThemes s) : t ∈ THEMES := by
  unfold eligibleThemes at h
  split at h
  · exact h
  · exact (List.mem_filter.mp h).1

theorem techPool_ne_nil_of_mem {t : Theme} (h : t ∈ THEMES) :
    techPool t ≠ [] := by
  revert t
  decide

theorem finalTechPool_ne_nil (s : RotationState) {t : Theme}
    (h : techPool t ≠ []) : finalTechPool s t ≠ [] := by
  unfold finalTechPool
  split
  · exact h
  · assumption

theorem mem_techPool_of_mem_finalTechPool {s : RotationState} {t : Theme}
    {x : String} (h : x ∈ finalTechPool s t) : x ∈ techPool t := by
  unfold finalTechPool at h
  split at h
  · exact h
  · exact (List.mem_filter.mp h).1

/-! ## Claims -/

/-- C8: the publish-commit update (append one entry, then trim with
`[-5:]`) leaves `last_themes` and `last_tech` with at most 5 entries,
for every starting state and draft. -/
theorem C8_history_trim (s : RotationState) (d : Draft) :
    (commitState s d).last_themes.length ≤ 5 ∧
    (commitState s d).last_tech.length ≤ 5 := by
  unfold commitState
  exact ⟨lastK_length_le 5 _, lastK_length_le 5 _⟩

/-- C3: the episode/act advancement on successful publish moves
`(act_index, episode)` to `(act_index, episode+1)` when the episode is
below the act's `max_episodes`, and to `((act_index+1) mod A, 1)` when
it equals it; the invariants `act_index < A` and
`1 ≤ episode ≤ max_episodes(act_index)` are preserved, and the default
starting state is `(0, 1)`. -/
theorem C3_episode_act_advance (ai ep : Nat) (hA : ai < ACTS.length)
    (h1 : 1 ≤ ep) (h2 : ep ≤ (ACTS.getD ai ⟨"", 0⟩).max_episodes) :
    (ep < (ACTS.getD ai ⟨"", 0⟩).max_episodes →
       advance ai ep = (ai, ep + 1)) ∧
    (ep = (ACTS.getD ai ⟨"", 0⟩).max_episodes →
       advance ai ep = ((ai + 1) % ACTS.length, 1)) ∧
    (advance ai ep).1 < ACTS.length ∧
    1 ≤ (advance ai ep).2 ∧
    (advance ai ep).2 ≤ (ACTS.getD (advance ai ep).1 ⟨"", 0⟩).max_episodes ∧
    defaultState.act_index = 0 ∧ defaultState.episode = 1 := by
  have hpos : ∀ j, j < ACTS.length →
      1 ≤ (ACTS.getD j ⟨"", 0⟩).max_episodes := by decide
  have hlen : 0 < ACTS.length := by decide
  by_cases hc : ep + 1 > (ACTS.getD ai ⟨"", 0⟩).max_episodes
  · have hadv : advance ai ep = ((ai + 1) % ACTS.length, 1) := by
      rw [advance_eq, if_pos hc]
    refine ⟨fun hlt => absurd hc (by omega), fun _ => hadv, ?_, ?_, ?_, rfl, rfl⟩
    · rw [hadv]; exact Nat.mod_lt _ hlen
    · rw [hadv]
    · rw [hadv]; exact hpos _ (Nat.mod_lt _ hlen)
  · have hadv : advance ai ep = (ai, ep + 1) := by
      rw [advance_eq, if_neg hc]
    refine ⟨fun _ => hadv, fun heq => absurd hc (by omega), ?_, ?_, ?_, rfl, rfl⟩
    · rw [hadv]; exact hA
    · rw [hadv]; exact Nat.le_add_left 1 ep
    · rw [hadv]; show ep + 1 ≤ (ACTS.getD ai ⟨"", 0⟩).max_episodes; omega

/-- C3 witness: the last episode of ACT IV (index 3, `max_episodes` 6)
advances to `(4, 1)`. -/
theorem C3_witness :
    (3 < ACTS.length ∧ 1 ≤ 6 ∧ 6 ≤ (ACTS.getD 3 ⟨"", 0⟩).max_episodes) ∧
    ((6 < (ACTS.getD 3 ⟨"", 0⟩).max_episodes → advance 3 6 = (3, 7)) ∧
     (6 = (ACTS.getD 3 ⟨"", 0⟩).max_episodes →
        advance 3 6 = ((3 + 1) % ACTS.length, 1)) ∧
     (advance 3 6).1 < ACTS.length ∧
     1 ≤ (advance 3 6).2 ∧
     (advance 3 6).2 ≤ (ACTS.getD (advance 3 6).1 ⟨"", 0⟩).max_episodes ∧
     defaultState.act_index = 0 ∧ defaultState.episode = 1) :=
  ⟨⟨by decide, by decide, by decide⟩,
   C3_episode_act_advance 3 6 (by decide) (by decide) (by decide)⟩

/-- C7: the selector always returns a theme from `THEMES` and a tech
topic from the chosen theme's pool (both pools are provably non-empty,
so `random.choice` never raises); the theme avoids the last 3 theme
types whenever the filtered list is non-empty, and the tech avoids the
last 2 topics whenever its filtered pool is non-empty. -/
theorem C7_selector (s : RotationState) (seed1 seed2 : Nat) :
    (select_theme_and_tech s seed1 seed2).1 ∈ THEMES ∧
    (select_theme_and_tech s seed1 seed2).2 ∈
      techPool (select_theme_and_tech s seed1 seed2).1 ∧
    eligibleThemes s ≠ [] ∧
    finalTechPool s (select_theme_and_tech s seed1 seed2).1 ≠ [] ∧
    (eligibleThemesFiltered s ≠ [] →
       (select_theme_and_tech s seed1 seed2).1.type ∉ lastK 3 s.last_themes) ∧
    (finalTechFiltered s (select_theme_and_tech s seed1 seed2).1 ≠ [] →
       (select_theme_and_tech s seed1 seed2).2 ∉ lastK 2 s.last_tech) := by
  have hth : (select_theme_and_tech s seed1 seed2).1 =
      chooseFrom (eligibleThemes s) junkTheme seed1 := rfl
  have hte : (select_theme_and_tech s seed1 seed2).2 =
      chooseFrom (finalTechPool s (select_theme_and_tech s seed1 seed2).1)
        "" seed2 := rfl
  have hne := eligibleThemes_ne_nil s
  have hmem : (select_theme_and_tech s seed1 seed2).1 ∈ eligibleThemes s := by
    rw [hth]; exact chooseFrom_mem _ _ _ hne
  have hmemT := mem_THEMES_of_mem_eligible hmem
  have hpool := techPool_ne_nil_of_mem hmemT
  have hfpool := finalTechPool_ne_nil s hpool
  have hmemTech : (select_theme_and_tech s seed1 seed2).2 ∈
      finalTechPool s (select_theme_and_tech s seed1 seed2).1 := by
    rw [hte]; exact chooseFrom_mem _ _ _ hfpool
  refine ⟨hmemT, mem_techPool_of_mem_finalTechPool hmemTech, hne, hfpool,
    ?_, ?_⟩
  · intro hf
    have : eligibleThemes s = eligibleThemesFiltered s := by
      unfold eligibleThemes
      rw [if_neg hf]
    rw [this] at hmem
    have := (List.mem_filter.mp hmem).2
    simpa using this
  · intro hf
    have : finalTechPool s (select_theme_and_tech s seed1 seed2).1 =
        finalTechFiltered s (select_theme_and_tech s seed1 seed2).1 := by
      unfold finalTechPool
      rw [if_neg hf]
    rw [this] at hmemTech
    have := (List.mem_filter.mp hmemTech).2
    simpa using this

/-- C7 witness: the selector instantiated on the default state with
concrete seeds. -/
theorem C7_witness :
    (select_theme_and_tech defaultState 0 1).1 ∈ THEMES ∧
    (select_theme_and_tech defaultState 0 1).2 ∈
      techPool (select_theme_and_tech defaultState 0 1).1 ∧
    eligibleThemes defaultState ≠ [] ∧
    finalTechPool defaultState (select_theme_and_tech defaultState 0 1).1 ≠ [] ∧
    (eligibleThemesFiltered defaultState ≠ [] →
       (select_theme_and_tech defaultState 0 1).1.type ∉
         lastK 3 defaultState.last_themes) ∧
    (finalTechFiltered defaultState (select_theme_and_tech defaultState 0 1).1 ≠ [] →
       (select_theme_and_tech defaultState 0 1).2 ∉
         lastK 2 defaultState.last_tech) :=
  C7_selector defaultState 0 1

theorem pollLoop_eq_false_of_never_available (status : Nat → Option String)
    (h : ∀ i, status i ≠ some "AVAILABLE") :
    ∀ fuel i, pollLoop status i fuel = false := by
  intro fuel
  induction fuel with
  | zero => intro i; rfl
  | succ n ih =>
    intro i
    unfold pollLoop
    cases hs : status i with
    | none => exact ih (i + 1)
    | some s =>
      have hne : ¬ s = "AVAILABLE" := by
        intro he
        exact h i (by rw [hs, he])
      show (if s = "AVAILABLE" then true
            else if s = "FAILED" ∨ s = "ERROR" then false
            else pollLoop status (i + 1) n) = false
      rw [if_neg hne]
      split
      · rfl
      · exact ih (i + 1)

/-- C2: whenever the create-post call does not return 201, the whole
filesystem (rotation state, draft file, image file) is left exactly as
it was, and the rotation state can only change when the post call
returned 201 — state mutation strictly follows publish confirmation. -/
theorem C2_publish_atomicity (w : World) (api : Api) :
    (api.post_statuses 0 ≠ 201 → (run_publish_mode w api).world = w) ∧
    ((run_publish_mode w api).world.state_file ≠ w.state_file →
       api.post_statuses 0 = 201) := by
  cases hd : w.draft_file with
  | none =>
    constructor
    · intro _
      simp [run_publish_mode, hd]
    · intro hne
      exact absurd (by simp [run_publish_mode, hd]) hne
  | some d =>
    cases hu : api.urn with
    | none =>
      constructor
      · intro _
        simp [run_publish_mode, hd, hu]
      · intro hne
        exact absurd (by simp [run_publish_mode, hd, hu]) hne
    | some u =>
      by_cases hs : api.post_statuses 0 = 201
      · exact ⟨fun h => absurd hs h, fun _ => hs⟩
      · have hw : (run_publish_mode w api).world = w := by
          simp [run_publish_mode, hd, hu, post_to_linkedin, hs]
        exact ⟨fun _ => hw, fun hne => absurd (by rw [hw]) hne⟩

/-- Concrete draft used by several witnesses. -/
def draft0 : Draft :=
  ⟨"My story.".data, "Lesson one.", some "THE CRASH", some "Redis"⟩

/-- Concrete filesystem with a state file, a pending draft and an
image. -/
def world0 : World := ⟨some defaultState, some draft0, some "images/a.png"⟩

/-- Social API whose create-post call returns HTTP 403. -/
def api403 : Api :=
  ⟨some "abc", some "urn-img-1", fun _ => some "AVAILABLE", 30, fun _ => 403⟩

/-- C2 witness: a publish run whose post call returns 403 leaves the
filesystem untouched. -/
theorem C2_witness :
    (api403.post_statuses 0 ≠ 201 →
       (run_publish_mode world0 api403).world = world0) ∧
    ((run_publish_mode world0 api403).world.state_file ≠ world0.state_file →
       api403.post_statuses 0 = 201) :=
  C2_publish_atomicity world0 api403

/-- C9: with a pending draft and a resolved urn, an image whose upload
fails, or whose status poll never reports AVAILABLE (timeout), or whose
poll loop returns failure, degrades to a text-only post: the create-post
call is still made with `media = None`, and the run's exit status is
decided solely by the post call. -/
theorem C9_image_degrades (w : World) (api : Api) (d : Draft)
    (hd : w.draft_file = some d) (hu : api.urn.isSome = true)
    (hi : w.image_file.isSome = true)
    (hfail : api.upload_result = none ∨
             (∀ i, api.poll_status i ≠ some "AVAILABLE") ∨
             pollLoop api.poll_status 0 api.poll_fuel = false) :
    (run_publish_mode w api).post_call =
      some ⟨trimText d.post_text, none⟩ ∧
    ((run_publish_mode w api).exitsig = ExitSig.ok ↔
       api.post_statuses 0 = 201) := by
  obtain ⟨u, hu⟩ := Option.isSome_iff_exists.mp hu
  obtain ⟨img, hi⟩ := Option.isSome_iff_exists.mp hi
  have hpoll : ∀ m : String,
      poll_image_status (some m) api.poll_status api.poll_fuel = false ∨
      api.upload_result = none := by
    intro m
    rcases hfail with hup | hnav | hpl
    · exact Or.inr hup
    · exact Or.inl (pollLoop_eq_false_of_never_available _ hnav _ _)
    · exact Or.inl hpl
  have hmedia : (match w.image_file with
      | none => none
      | some _ =>
        match api.upload_result with
        | none => none
        | some m =>
          if poll_image_status (some m) api.poll_status api.poll_fuel
          then some m else (none : Option String)) = none := by
    rw [hi]
    cases hup : api.upload_result with
    | none => rfl
    | some m =>
      rcases hpoll m with hp | hc
      · simp [hp]
      · rw [hup] at hc
        exact absurd hc (by simp)
  by_cases hs : api.post_statuses 0 = 201
  · constructor
    · simp [run_publish_mode, hd, hu, hmedia, post_to_linkedin, hs]
    · simp [run_publish_mode, hd, hu, hmedia, post_to_linkedin, hs]
  · constructor
    · simp [run_publish_mode, hd, hu, hmedia, post_to_linkedin, hs]
    · simp [run_publish_mode, hd, hu, hmedia, post_to_linkedin, hs]

/-- Social API whose image upload raises (models the `except` branch of
`upload_image_to_linkedin` returning `None`). -/
def apiUploadFail : Api :=
  ⟨some "abc", none, fun _ => some "PROCESSING", 30, fun _ => 201⟩

/-- C9 witness: upload failure on a run with draft, urn and image
present still posts, text-only. -/
theorem C9_witness :
    (run_publish_mode world0 apiUploadFail).post_call =
      some ⟨trimText draft0.post_text, none⟩ ∧
    ((run_publish_mode world0 apiUploadFail).exitsig = ExitSig.ok ↔
       apiUploadFail.post_statuses 0 = 201) :=
  C9_image_degrades world0 apiUploadFail draft0 rfl rfl rfl (Or.inl rfl)

/-- C10: document loading is total — a missing file or a parse failure
yields `None`, never an exception; draft mode then starts from the
default rotation state `(act 0, episode 1, empty histories)`, and
publish mode with no loadable draft returns normally (exit 0) with the
filesystem untouched and no post call made. -/
theorem C10_total_loading :
    (∀ p : Except String RotationState, load_json false p = none) ∧
    (∀ e : String,
       load_json true (Except.error e : Except String RotationState) = none) ∧
    (draft_mode_initial_state none = defaultState ∧
       defaultState.act_index = 0 ∧ defaultState.episode = 1 ∧
       defaultState.previous_lessons = [] ∧
       defaultState.last_themes = [] ∧ defaultState.last_tech = []) ∧
    (∀ (w : World) (api : Api), w.draft_file = none →
       run_publish_mode w api = ⟨w, ExitSig.ok, none⟩) := by
  refine ⟨fun p => rfl, fun e => rfl,
    ⟨rfl, rfl, rfl, rfl, rfl, rfl⟩, ?_⟩
  intro w api hd
  simp [run_publish_mode, hd]

/-- Concrete filesystem with no pending draft. -/
def worldNoDraft : World := ⟨some defaultState, none, none⟩

/-- C10 witness: publish mode with no draft returns normally and
changes nothing. -/
theorem C10_witness :
    run_publish_mode worldNoDraft api403 =
      ⟨worldNoDraft, ExitSig.ok, none⟩ :=
  C10_total_loading.2.2.2 worldNoDraft api403 rfl

/-- Generation oracle whose editor verdict is `FAIL` on every attempt. -/
def failOracle : GenOracle :=
  ⟨fun _ => ⟨"A war story about production.".data, "Lesson."⟩,
   fun _ => "FAIL"⟩

/-- C1 counterexample: with an editor that returns `FAIL` on both
attempts, `generate_with_review` does not abort — it returns the
second attempt's draft ungated (after two attempts), contradicting the
claim that both attempts failing is a terminal condition with a
non-zero exit and that an ungated draft is never returned. -/
theorem C1_counterexample :
    pyStrip (failOracle.review 0).data ≠ "PASS_9_PLUS".data ∧
    pyStrip (failOracle.review 1).data ≠ "PASS_9_PLUS".data ∧
    (generate_with_review failOracle).gated = false ∧
    (generate_with_review failOracle).attempts = 2 ∧
    (generate_with_review failOracle).content = failOracle.gen 1 := by
  decide

/-- C1 amended: when the editor verdict strips to something other than
`PASS_9_PLUS` on both attempts, the generator makes exactly 2
generation attempts (never 3) and then, instead of aborting, returns
the last-generated content (with its `post_text` not replaced by the
sanitized version) after printing a warning; in every run at most 2
attempts are ever made. -/
theorem C1_amended_two_attempts (o : GenOracle)
    (h0 : pyStrip (o.review 0).data ≠ "PASS_9_PLUS".data)
    (h1 : pyStrip (o.review 1).data ≠ "PASS_9_PLUS".data) :
    (generate_with_review o).attempts = 2 ∧
    (generate_with_review o).gated = false ∧
    (generate_with_review o).content = o.gen 1 ∧
    (∀ o' : GenOracle, (generate_with_review o').attempts ≤ 2) := by
  refine ⟨?_, ?_, ?_, ?_⟩
  · simp [generate_with_review, h0, h1]
  · simp [generate_with_review, h0, h1]
  · simp [generate_with_review, h0, h1]
  · intro o'
    unfold generate_with_review
    split
    · exact Nat.le_succ 1
    · split
      · exact Nat.le_refl 2
      · exact Nat.le_refl 2

/-- C1 witness: the amended behavior at the always-`FAIL` oracle. -/
theorem C1_amended_witness :
    pyStrip (failOracle.review 0).data ≠ "PASS_9_PLUS".data ∧
    ((generate_with_review failOracle).attempts = 2 ∧
     (generate_with_review failOracle).gated = false ∧
     (generate_with_review failOracle).content = failOracle.gen 1 ∧
     (∀ o' : GenOracle, (generate_with_review o').attempts ≤ 2)) :=
  ⟨by decide, C1_amended_two_attempts failOracle (by decide) (by decide)⟩

/-- Status oracle answering 500 to the first create-post call and 201
to any further call. -/
def flakyStatuses : Nat → Nat := fun n => if n = 0 then 500 else 201

/-- C4 counterexample: the create-post call is made exactly once even
when the first response is a 500 that a single retry would turn into a
201 — there is no retry and no backoff, contradicting the claimed
5xx-retry-with-exponential-backoff behavior. -/
theorem C4_counterexample :
    flakyStatuses 0 = 500 ∧ flakyStatuses 1 = 201 ∧
    (post_to_linkedin "some text".data none flakyStatuses).1 = false ∧
    (post_to_linkedin "some text".data none flakyStatuses).2.1 = 1 := by
  decide

/-- C4 amended: every create-post invocation makes exactly one HTTP
attempt; any response other than 201 — 4xx and 5xx alike — is a
permanent failure with no retry and no backoff. -/
theorem C4_amended_single_attempt (text : List Char)
    (media : Option String) (statuses : Nat → Nat) :
    (post_to_linkedin text media statuses).2.1 = 1 ∧
    ((post_to_linkedin text media statuses).1 = true ↔
       statuses 0 = 201) := by
  constructor
  · rfl
  · simp [post_to_linkedin]

/-- C4 witness: a 201 response makes the single attempt succeed. -/
theorem C4_amended_witness :
    (post_to_linkedin "hello".data none (fun _ => 201)).2.1 = 1 ∧
    ((post_to_linkedin "hello".data none (fun _ => 201)).1 = true ↔
       (fun _ : Nat => 201) 0 = 201) :=
  C4_amended_single_attempt "hello".data none (fun _ => 201)

/-- A post text one character over the limit that ends with the fixed
hashtag suffix verbatim. -/
def longText : List Char := List.replicate 2764 'a' ++ fixedSuffix

theorem fixedSuffix_length : fixedSuffix.length = 37 := rfl

theorem longText_length : longText.length = 2801 := by
  show (List.replicate 2764 'a' ++ fixedSuffix).length = 2801
  rw [List.length_append, List.length_replicate, fixedSuffix_length]

theorem trimText_longText :
    trimText longText = longText.take 2797 ++ "...".data := by
  unfold trimText
  rw [if_pos (by rw [longText_length]; omega)]

/-- C5 counterexample: a text over 2800 characters that ends with the
fixed hashtag suffix is trimmed to its first 2797 characters plus
`...`, so the submitted string no longer ends with the fixed suffix —
the truncation cuts the tail (suffix included) rather than the
variable story portion. -/
theorem C5_counterexample :
    2800 < longText.length ∧
    fixedSuffix <:+ longText ∧
    (trimText longText).length ≤ 2800 ∧
    ¬ fixedSuffix <:+ trimText longText := by
  refine ⟨by rw [longText_length]; omega,
    ⟨List.replicate 2764 'a', rfl⟩, ?_, ?_⟩
  · rw [trimText_longText, List.length_append, List.length_take,
      longText_length]
    have h3 : ("...".data).length = 3 := rfl
    rw [h3]
    omega
  · intro hsuf
    obtain ⟨t, ht⟩ := hsuf
    have h1 : (trimText longText).getLast? = some '.' := by
      rw [trimText_longText,
        @List.getLast?_append_of_ne_nil _ (longText.take 2797)
          ("...".data) (by decide)]
      rfl
    have h2 : (trimText longText).getLast? = fixedSuffix.getLast? := by
      rw [← ht,
        @List.getLast?_append_of_ne_nil _ t fixedSuffix (by decide)]
    have h3 : fixedSuffix.getLast? = some 'a' := rfl
    rw [h1, h3] at h2
    exact absurd (Option.some.inj h2) (by decide)

/-- C5 amended: a composed text longer than 2800 characters is replaced
by its first 2797 characters with `...` appended: the result has length
exactly 2800 (hence within the ceiling) and ends with the ellipsis
marker, but everything past position 2797 — the fixed suffix included —
is discarded rather than preserved. -/
theorem C5_amended_truncation (t : List Char) (h : 2800 < t.length) :
    (trimText t).length = 2800 ∧
    trimText t = t.take 2797 ++ "...".data ∧
    "...".data <:+ trimText t := by
  have he : trimText t = t.take 2797 ++ "...".data := by
    unfold trimText
    rw [if_pos h]
  refine ⟨?_, he, ?_⟩
  · rw [he, List.length_append, List.length_take]
    have h3 : ("...".data).length = 3 := rfl
    rw [h3]
    omega
  · rw [he]
    exact ⟨t.take 2797, rfl⟩

/-- C5 witness: the amended truncation law at a 2801-character text. -/
theorem C5_amended_witness :
    2800 < (List.replicate 2801 'a').length ∧
    ((trimText (List.replicate 2801 'a')).length = 2800 ∧
     trimText (List.replicate 2801 'a') =
       (List.replicate 2801 'a').take 2797 ++ "...".data ∧
     "...".data <:+ trimText (List.replicate 2801 'a')) :=
  ⟨by rw [List.length_replicate]; omega,
   C5_amended_truncation _ (by rw [List.length_replicate]; omega)⟩

/-- C6 counterexample: the forbidden theme name (here the type of the
fifth theme, `THE METRIC LIE`) passes through `clean_text` completely
unchanged — no forbidden-phrase stripping of act or theme names exists
anywhere in `clean_text` or `generate_with_review`. -/
theorem C6_counterexample :
    clean_text (THEMES.getD 4 junkTheme).type.data =
      (THEMES.getD 4 junkTheme).type.data ∧
    (THEMES.getD 4 junkTheme).type.data <:+:
      clean_text (THEMES.getD 4 junkTheme).type.data ∧
    (THEMES.getD 4 junkTheme).type.data ≠ [] := by
  have he : clean_text (THEMES.getD 4 junkTheme).type.data =
      (THEMES.getD 4 junkTheme).type.data := by decide
  refine ⟨he, ⟨[], [], ?_⟩, by decide⟩
  rw [he]
  simp

/-- C6 amended: the sanitization deletes every markdown `*`, removes
bracketed/parenthesized annotations, and strips leading
`Hook:`/`Lesson:`/`Moral:`/`Reflection:` label prefixes
case-insensitively at line starts — but it performs no
forbidden-phrase removal: act and theme names are left untouched. -/
theorem C6_amended_sanitization :
    (∀ l : List Char, '*' ∉ clean_text l) ∧
    clean_text "Hook: I shipped it.".data = "I shipped it.".data ∧
    clean_text "LESSON: trust nothing.".data = "trust nothing.".data ∧
    clean_text "We did it (barely) right.".data = "We did it  right.".data ∧
    clean_text "a **bold** claim".data = "a bold claim".data ∧
    clean_text (THEMES.getD 4 junkTheme).type.data =
      (THEMES.getD 4 junkTheme).type.data := by
  refine ⟨?_, by decide, by decide, by decide, by decide, by decide⟩
  intro l hmem
  unfold clean_text pyStrip at hmem
  rw [List.mem_reverse] at hmem
  have h2 := List.dropWhile_subset _ hmem
  rw [List.mem_reverse] at h2
  have h3 := List.dropWhile_subset _ h2
  rw [List.mem_filter] at h3
  simpa using h3.2

/-- C6 witness: no `*` survives sanitization of a concrete input. -/
theorem C6_amended_witness :
    '*' ∉ clean_text "a *starred* word".data :=
  C6_amended_sanitization.1 "a *starred* word".data
